import Mathlib

/-
Shallow embedding of the e-commerce analytics repository
(src/lesson7_files/data_loader.py and src/lesson7_files/business_metrics.py).

Tables are lists of records.  Monetary amounts are rationals.  A pandas
timestamp is modelled as a record carrying its instant in seconds together
with the calendar decomposition that the pandas `.dt` accessors expose
(`year`, `month`, `dayofweek`, `quarter`); the claims never depend on the
arithmetic relation between the instant and its decomposition, only on the
projections.  A possibly-missing value (NaN / NaT / absent column) is an
`Option`.  `pd.to_datetime(col, errors="coerce")` is absorbed into the
representation: a raw timestamp cell is already `Option Timestamp`, where
`none` stands for an unparsable value or NaT.
-/

namespace ECom

/-- Model of a pandas timestamp: absolute instant in seconds plus the
calendar decomposition the `.dt` accessors return. -/
structure Timestamp where
  sec : Int
  year : Int
  month : Int
  dayOfWeek : Int
  quarter : Int
deriving Repr, DecidableEq

/-- One row of the `orders` table.  The raw CSV columns are the first six
fields; `year` models the derived column that
`calculate_order_status_distribution` writes onto the table in place
(`none` = column absent or NaN). -/
structure OrderRow where
  order_id : String
  customer_id : String
  order_status : String
  order_purchase_timestamp : Option Timestamp
  order_delivered_customer_date : Option Timestamp
  order_estimated_delivery_date : Option Timestamp
  year : Option Int := none
deriving Repr, DecidableEq

/-- One row of the `order_items` table. -/
structure OrderItemRow where
  order_id : String
  order_item_id : Int
  product_id : String
  price : ℚ
  freight_value : ℚ
deriving Repr, DecidableEq

/-- One row of the `products` table (columns the code uses). -/
structure ProductRow where
  product_id : String
  product_category_name : String
deriving Repr, DecidableEq

/-- One row of the `customers` table (columns the code uses). -/
structure CustomerRow where
  customer_id : String
  customer_state : String
  customer_city : String
deriving Repr, DecidableEq

/-- One row of the `reviews` table (columns the code uses). -/
structure ReviewRow where
  order_id : String
  review_score : ℚ
deriving Repr, DecidableEq

/-- The loader session state: `self.raw_data`.  A table that was never
loaded (missing CSV, or `load_raw_data` not called) is `none`, mirroring
an absent key of the `raw_data` dict. -/
structure LoaderState where
  orders : Option (List OrderRow)
  order_items : Option (List OrderItemRow)
  products : Option (List ProductRow)
  customers : Option (List CustomerRow)
  reviews : Option (List ReviewRow)
deriving Repr, DecidableEq

/-- One row of the merged sales table built by `prepare_sales_data`.
The derived columns (`year`, `month`, `day_of_week`, `quarter`,
`delivery_days`) start out as `none` (column absent) and are written by the
pipeline stages; `delivery_speed_days` models the column that
`calculate_customer_experience_metrics` writes in place. -/
structure SalesRow where
  order_id : String
  order_item_id : Int
  product_id : String
  price : ℚ
  freight_value : ℚ
  customer_id : String
  order_status : String
  order_purchase_timestamp : Option Timestamp
  order_delivered_customer_date : Option Timestamp
  order_estimated_delivery_date : Option Timestamp
  year : Option Int := none
  month : Option Int := none
  day_of_week : Option Int := none
  quarter : Option Int := none
  delivery_days : Option Int := none
  delivery_speed_days : Option Int := none
deriving Repr, DecidableEq

/-- Python truthiness of an `Optional[int]` value: `None` and `0` are
falsy, every other integer is truthy.  This is the test performed by
`if year:` and `if month and year:` in `filter_by_date_range` and by
`if year or month:` in `create_analysis_dataset`. -/
def truthy : Option Int → Bool
  | none => false
  | some v => v != 0

/-- `(b - a).dt.days` for two optional timestamps: floor division of the
signed difference in seconds by 86400 (pandas `Timedelta.days` floors
toward negative infinity); NaT in either operand gives NaN (`none`). -/
def daysBetween (a b : Option Timestamp) : Option Int :=
  match a, b with
  | some x, some y => some ((y.sec - x.sec).fdiv 86400)
  | _, _ => none

/-- The single error kind of the loader model: a required table was never
loaded.  In the Python source this surfaces as the `KeyError` raised by
`self.raw_data[...]`; the specification names this condition
`MissingDataError`. -/
inductive LoaderError where
  | missingData
deriving Repr, DecidableEq

/-- `clean_datetime_columns` parses the listed columns with
`errors="coerce"`.  In the embedding timestamp cells are already parsed
(`Option Timestamp`, `none` for unparsable/NaT), so the stage is the
identity on the table; it is kept as a named stage to mirror the source. -/
def clean_datetime_columns (rows : List SalesRow) : List SalesRow :=
  rows

/-- `extract_time_features(df, "order_purchase_timestamp")`: writes the
`year`, `month`, `day_of_week`, `quarter` columns derived from the purchase
timestamp (NaT propagates to NaN, i.e. `none`). -/
def extract_time_features (rows : List SalesRow) : List SalesRow :=
  rows.map fun r =>
    { r with
      year := r.order_purchase_timestamp.map (·.year)
      month := r.order_purchase_timestamp.map (·.month)
      day_of_week := r.order_purchase_timestamp.map (·.dayOfWeek)
      quarter := r.order_purchase_timestamp.map (·.quarter) }

/-- The row built by the inner merge of `order_items` and `orders` on
`order_id` inside `prepare_sales_data` (selected columns of both sides). -/
def mkSalesRow (it : OrderItemRow) (o : OrderRow) : SalesRow :=
  { order_id := it.order_id
    order_item_id := it.order_item_id
    product_id := it.product_id
    price := it.price
    freight_value := it.freight_value
    customer_id := o.customer_id
    order_status := o.order_status
    order_purchase_timestamp := o.order_purchase_timestamp
    order_delivered_customer_date := o.order_delivered_customer_date
    order_estimated_delivery_date := o.order_estimated_delivery_date }

/-- The inner merge `pd.merge(order_items[...], orders[...], on="order_id")`:
each left row is paired with every right row carrying the same key, in
left-major order. -/
def mergeItemsOrders (items : List OrderItemRow) (orders : List OrderRow) :
    List SalesRow :=
  items.flatMap fun it =>
    (orders.filter fun o => o.order_id == it.order_id).map fun o =>
      mkSalesRow it o

/-- `EcommerceDataLoader.prepare_sales_data(order_status_filter)`.
Needs `order_items` and `orders` in `raw_data`; a missing table raises
(modelled as `Except.error .missingData`).  Then: inner merge on
`order_id`, keep rows whose status is in the filter (default
`["delivered"]`), clean datetimes, extract time features from the purchase
timestamp, and write `delivery_days` as the floored whole-day difference
between delivery and purchase. -/
def prepare_sales_data (st : LoaderState)
    (order_status_filter : Option (List String)) :
    Except LoaderError (List SalesRow) :=
  let filt := order_status_filter.getD ["delivered"]
  match st.order_items, st.orders with
  | some items, some orders =>
      let sales := mergeItemsOrders items orders
      let sales := sales.filter fun r => filt.contains r.order_status
      let sales := clean_datetime_columns sales
      let sales := extract_time_features sales
      let sales := sales.map fun r =>
        { r with delivery_days := daysBetween r.order_purchase_timestamp r.order_delivered_customer_date }
      Except.ok sales
  | _, _ => Except.error LoaderError.missingData

/-- Whether a row passes the `start_date` bound (`df[ts] >= start_date`,
inclusive; a NaT timestamp compares false). -/
def passStart (s : Int) (r : SalesRow) : Bool :=
  match r.order_purchase_timestamp with
  | some t => s ≤ t.sec
  | none => false

/-- Whether a row passes the `end_date` bound (`df[ts] <= end_date`,
inclusive; a NaT timestamp compares false). -/
def passEnd (e : Int) (r : SalesRow) : Bool :=
  match r.order_purchase_timestamp with
  | some t => t.sec ≤ e
  | none => false

/-- `EcommerceDataLoader.filter_by_date_range` with the default timestamp
column.  The date bounds are modelled as already-parsed instants
(`Option Int` seconds); supplying an empty string, which is falsy in
Python and is not a date, is outside the model.  The `year` and `month`
guards are Python truthiness tests (`if year:`, `if month and year:`), so
a supplied 0 is ignored exactly as in the source. -/
def filter_by_date_range (df : List SalesRow)
    (start_date end_date : Option Int) (year month : Option Int) :
    List SalesRow :=
  let d1 := match start_date with
    | some s => df.filter (passStart s)
    | none => df
  let d2 := match end_date with
    | some e => d1.filter (passEnd e)
    | none => d1
  let d3 := if truthy year then d2.filter (fun r => r.year == year) else d2
  let d4 := if truthy month && truthy year then
      d3.filter (fun r => r.month == month)
    else d3
  d4

/-- The conjunction of the filters that `filter_by_date_range` actually
applies: an inclusive lower instant bound when `start_date` is supplied, an
inclusive upper bound when `end_date` is supplied, an exact `year` match
when `year` is truthy, and an exact `month` match when both `month` and
`year` are truthy. -/
def passesFilters (start_date end_date : Option Int)
    (year month : Option Int) (r : SalesRow) : Bool :=
  (match start_date with
    | some s => passStart s r
    | none => true) &&
  (match end_date with
    | some e => passEnd e r
    | none => true) &&
  (if truthy year then r.year == year else true) &&
  (if truthy month && truthy year then r.month == month else true)

/-- One row of the analysis dataset built by `create_analysis_dataset`:
the sales row plus the optionally joined columns.  A column that is `none`
is either null from an unmatched left join or absent because the join was
skipped. -/
structure AnalysisRow where
  sales : SalesRow
  product_category_name : Option String := none
  customer_state : Option String := none
  customer_city : Option String := none
  review_score : Option ℚ := none
deriving Repr, DecidableEq

/-- A pandas left merge of analysis rows against a lookup table: every
left row is retained; a row with no key match yields one output row with
null joined columns, a row with k matches yields k extended rows. -/
def leftJoinWith {β : Type} (rows : List AnalysisRow) (tbl : List β)
    (key : AnalysisRow → β → Bool)
    (ext : AnalysisRow → Option β → AnalysisRow) : List AnalysisRow :=
  rows.flatMap fun r =>
    match tbl.filter (key r) with
    | [] => [ext r none]
    | ms => ms.map fun b => ext r (some b)

/-- Left join with `products[["product_id", "product_category_name"]]`
on `product_id`. -/
def joinProducts (rows : List AnalysisRow) (ps : List ProductRow) :
    List AnalysisRow :=
  leftJoinWith rows ps
    (fun r p => p.product_id == r.sales.product_id)
    (fun r p => { r with product_category_name := p.map (·.product_category_name) })

/-- Left join with `customers[["customer_id", "customer_state",
"customer_city"]]` on `customer_id`. -/
def joinCustomers (rows : List AnalysisRow) (cs : List CustomerRow) :
    List AnalysisRow :=
  leftJoinWith rows cs
    (fun r c => c.customer_id == r.sales.customer_id)
    (fun r c => { r with
        customer_state := c.map (·.customer_state)
        customer_city := c.map (·.customer_city) })

/-- Left join with `reviews[["order_id", "review_score"]]` on `order_id`. -/
def joinReviews (rows : List AnalysisRow) (rs : List ReviewRow) :
    List AnalysisRow :=
  leftJoinWith rows rs
    (fun r v => v.order_id == r.sales.order_id)
    (fun r v => { r with review_score := v.map (·.review_score) })

/-- The date-filtered sales stage of `create_analysis_dataset`: sales data
from `prepare_sales_data()`, then `filter_by_date_range(year=year,
month=month)` when `year or month` is truthy. -/
def analysisSales (st : LoaderState) (year month : Option Int) :
    Except LoaderError (List SalesRow) :=
  (prepare_sales_data st none).map fun sales =>
    if truthy year || truthy month then
      filter_by_date_range sales none none year month
    else sales

/-- The product-information step of `create_analysis_dataset`: performed
only when `include_product_info` is set and `products` is in `raw_data`. -/
def productStage (st : LoaderState) (include_product_info : Bool)
    (rows : List AnalysisRow) : List AnalysisRow :=
  match include_product_info, st.products with
  | true, some ps => joinProducts rows ps
  | _, _ => rows

/-- The geographic step of `create_analysis_dataset`: performed only when
`include_geographic` is set and `customers` is in `raw_data`. -/
def customerStage (st : LoaderState) (include_geographic : Bool)
    (rows : List AnalysisRow) : List AnalysisRow :=
  match include_geographic, st.customers with
  | true, some cs => joinCustomers rows cs
  | _, _ => rows

/-- The review step of `create_analysis_dataset`: performed only when
`include_reviews` is set and `reviews` is in `raw_data`. -/
def reviewStage (st : LoaderState) (include_reviews : Bool)
    (rows : List AnalysisRow) : List AnalysisRow :=
  match include_reviews, st.reviews with
  | true, some rs => joinReviews rows rs
  | _, _ => rows

/-- `EcommerceDataLoader.create_analysis_dataset`: filtered sales data,
then three independently toggleable left joins (products on `product_id`,
customers on `customer_id`, reviews on `order_id`), each also skipped when
its table is not in `raw_data`. -/
def create_analysis_dataset (st : LoaderState) (year month : Option Int)
    (include_geographic include_product_info include_reviews : Bool) :
    Except LoaderError (List AnalysisRow) :=
  (analysisSales st year month).map fun sales =>
    reviewStage st include_reviews
      (customerStage st include_geographic
        (productStage st include_product_info
          (sales.map fun s => ({ sales := s } : AnalysisRow))))

/-- Code-point lexicographic comparison of character lists: the string
ordering Python (and hence a pandas groupby over string keys) uses. -/
def charListLE : List Char → List Char → Bool
  | [], _ => true
  | _ :: _, [] => false
  | a :: as, b :: bs =>
      if a < b then true else if b < a then false else charListLE as bs

/-- Python string comparison, as a Bool. -/
def strLEb (a b : String) : Bool :=
  charListLE a.data b.data

/-- Python string comparison, as a Prop (the relation used to model the
ascending key order of a pandas groupby over string keys). -/
def strLE (a b : String) : Prop :=
  strLEb a b = true

instance : DecidableRel strLE := fun a b =>
  inferInstanceAs (Decidable (strLEb a b = true))

/-- Mean of a list of rationals: NaN (`none`) on an empty list, otherwise
sum divided by length.  Models pandas `.mean()` (with its default
`skipna=True`, callers pass the non-null values). -/
def mean (xs : List ℚ) : Option ℚ :=
  if xs.isEmpty then none else some (xs.sum / (xs.length : ℚ))

/-- Round-half-to-even to an integer, the rounding used by numpy and hence
by pandas `.round(k)`. -/
def roundHalfEven (x : ℚ) : Int :=
  let f := ⌊x⌋
  let r := x - (f : ℚ)
  if r < 1 / 2 then f
  else if 1 / 2 < r then f + 1
  else if f % 2 = 0 then f else f + 1

/-- pandas `.round(k)`: round-half-to-even at the k-th decimal place. -/
def roundTo (k : Nat) (x : ℚ) : ℚ :=
  (roundHalfEven (x * 10 ^ k) : ℚ) / 10 ^ k

/-- `sales_data[sales_data["year"] == y]`: the rows of a given year (a
null `year` compares false). -/
def yearSlice (sales : List SalesRow) (y : Int) : List SalesRow :=
  sales.filter fun r => r.year == some y

/-- Result record of `calculate_revenue_metrics`. -/
structure RevenueMetrics where
  current_year_revenue : ℚ
  previous_year_revenue : ℚ
  revenue_growth_percent : ℚ
deriving Repr, DecidableEq

/-- `calculate_revenue_metrics(sales_data, current_year, previous_year)`.
The first component of the result is the state of the caller-visible
`sales_data` table after the call (the function reads but never writes
it). -/
def calculate_revenue_metrics (sales : List SalesRow)
    (current_year previous_year : Int) :
    List SalesRow × RevenueMetrics :=
  let current_revenue := ((yearSlice sales current_year).map (·.price)).sum
  let previous_revenue := ((yearSlice sales previous_year).map (·.price)).sum
  let revenue_growth :=
    if 0 < previous_revenue then
      (current_revenue - previous_revenue) / previous_revenue * 100
    else 0
  (sales,
   { current_year_revenue := current_revenue
     previous_year_revenue := previous_revenue
     revenue_growth_percent := revenue_growth })

/-- The distinct months present among the rows, ascending — the group keys
of `groupby("month")` (rows with a null month are dropped by groupby). -/
def monthsOf (rows : List SalesRow) : List Int :=
  List.insertionSort (· ≤ ·) (rows.filterMap (·.month)).dedup

/-- The summed `price` of the rows of one month. -/
def monthSum (rows : List SalesRow) (m : Int) : ℚ :=
  ((rows.filter fun r => r.month == some m).map (·.price)).sum

/-- Tail of pandas `Series.pct_change`: each entry is
`(current - previous) / previous`.  A zero previous value yields a
non-finite float in pandas (inf or NaN); the embedding collapses every
non-finite entry to `none`. -/
def pctChangeTail (prev : ℚ) : List ℚ → List (Option ℚ)
  | [] => []
  | x :: xs =>
      (if prev = 0 then none else some ((x - prev) / prev)) ::
        pctChangeTail x xs

/-- pandas `Series.pct_change`: the first entry is NaN (`none`), each
later entry is the fractional change from the previous entry. -/
def pct_change : List ℚ → List (Option ℚ)
  | [] => []
  | x :: xs => none :: pctChangeTail x xs

/-- `calculate_monthly_growth(sales_data, year)`: filter to the year,
sum `price` grouped by `month`, return `pct_change` of the monthly sums
as a series indexed by month.  First component: the input table after the
call (unmodified). -/
def calculate_monthly_growth (sales : List SalesRow) (year : Int) :
    List SalesRow × List (Int × Option ℚ) :=
  let year_data := yearSlice sales year
  let months := monthsOf year_data
  (sales, months.zip (pct_change (months.map (monthSum year_data))))

/-- The distinct order ids among the rows (`groupby("order_id")` keys /
`nunique` support).  Only the set matters to the callers. -/
def orderIds (rows : List SalesRow) : List String :=
  (rows.map (·.order_id)).dedup

/-- The per-order summed item prices: `groupby("order_id")["price"].sum()`. -/
def orderSums (rows : List SalesRow) : List ℚ :=
  (orderIds rows).map fun oid =>
    ((rows.filter fun r => r.order_id == oid).map (·.price)).sum

/-- Result record of `calculate_average_order_value`.  The AOV of a year
with no rows is the mean of an empty grouping, NaN (`none`); the growth is
NaN (`none`) only when the guard passes and the current AOV is NaN. -/
structure AovMetrics where
  current_year_aov : Option ℚ
  previous_year_aov : Option ℚ
  aov_growth_percent : Option ℚ
deriving Repr, DecidableEq

/-- `calculate_average_order_value(sales_data, current_year,
previous_year)`: per-order price sums averaged per year; growth guarded by
`previous_aov > 0`, which is false for NaN (`none`) and for non-positive
values, in which case the growth is the integer 0. -/
def calculate_average_order_value (sales : List SalesRow)
    (current_year previous_year : Int) :
    List SalesRow × AovMetrics :=
  let current_aov := mean (orderSums (yearSlice sales current_year))
  let previous_aov := mean (orderSums (yearSlice sales previous_year))
  let aov_growth : Option ℚ :=
    match previous_aov with
    | some p =>
        if 0 < p then current_aov.map fun c => (c - p) / p * 100
        else some 0
    | none => some 0
  (sales,
   { current_year_aov := current_aov
     previous_year_aov := previous_aov
     aov_growth_percent := aov_growth })

/-- Result record of `calculate_order_volume_metrics`. -/
structure VolumeMetrics where
  current_year_orders : Nat
  previous_year_orders : Nat
  order_growth_percent : ℚ
deriving Repr, DecidableEq

/-- `df["order_id"].nunique()`: number of distinct order ids. -/
def nuniqueOrders (rows : List SalesRow) : Nat :=
  (rows.map (·.order_id)).dedup.length

/-- `calculate_order_volume_metrics(sales_data, current_year,
previous_year)`: distinct-order counts per year with the `previous > 0`
growth guard. -/
def calculate_order_volume_metrics (sales : List SalesRow)
    (current_year previous_year : Int) :
    List SalesRow × VolumeMetrics :=
  let current_orders := nuniqueOrders (yearSlice sales current_year)
  let previous_orders := nuniqueOrders (yearSlice sales previous_year)
  let order_growth :=
    if 0 < previous_orders then
      ((current_orders : ℚ) - (previous_orders : ℚ)) /
        (previous_orders : ℚ) * 100
    else 0
  (sales,
   { current_year_orders := current_orders
     previous_year_orders := previous_orders
     order_growth_percent := order_growth })

/-- One row of the category / geographic performance tables: the group
key (`product_category_name` resp. `customer_state`) and the three
aggregates renamed to `total_revenue`, `total_orders`,
`avg_order_value`. -/
structure PerfRow where
  key : String
  total_revenue : ℚ
  total_orders : Nat
  avg_order_value : ℚ
deriving Repr, DecidableEq

/-- Ascending comparison on `total_revenue`, the sort key of
`sort_values("total_revenue", ascending=False)`. -/
def perfLE (a b : PerfRow) : Prop :=
  a.total_revenue ≤ b.total_revenue

instance : DecidableRel perfLE := fun a b =>
  inferInstanceAs (Decidable (a.total_revenue ≤ b.total_revenue))

instance : IsTotal PerfRow perfLE :=
  ⟨fun a b => le_total a.total_revenue b.total_revenue⟩

instance : IsTrans PerfRow perfLE :=
  ⟨fun _ _ _ h1 h2 => le_trans h1 h2⟩

/-- `groupby(key)["price"].agg(["sum","count","mean"]).round(2)` followed
by `sort_values("total_revenue", ascending=False)` over a list of
(key, price) pairs.  groupby emits one row per distinct key, keys
ascending; the descending sort is pandas `nargsort`: a stable ascending
argsort (numpy introsort degenerates to a stable insertion sort on the
small arrays this embedding evaluates) whose index order is then
reversed — so rows with equal revenue end up in reverse of the group-key
order. -/
def perfTable (pairs : List (String × ℚ)) : List PerfRow :=
  let keys := List.insertionSort strLE (pairs.map Prod.fst).dedup
  let rows := keys.map fun k =>
    let ps := (pairs.filter fun x => x.1 == k).map Prod.snd
    { key := k
      total_revenue := roundTo 2 ps.sum
      total_orders := ps.length
      avg_order_value := roundTo 2 (ps.sum / (ps.length : ℚ)) : PerfRow }
  (List.insertionSort perfLE rows).reverse

/-- The inner merge of `sales_data[["product_id","price"]]` with
`products_data[["product_id","product_category_name"]]` on `product_id`,
reduced to its (category, price) content. -/
def categoryPricePairs (sales : List SalesRow)
    (products : List ProductRow) : List (String × ℚ) :=
  sales.flatMap fun s =>
    (products.filter fun p => p.product_id == s.product_id).map fun p =>
      (p.product_category_name, s.price)

/-- `calculate_product_category_performance(sales_data, products_data)`.
First component: the sales table after the call (unmodified). -/
def calculate_product_category_performance (sales : List SalesRow)
    (products : List ProductRow) : List SalesRow × List PerfRow :=
  (sales, perfTable (categoryPricePairs sales products))

/-- The double inner merge of `calculate_geographic_performance`: sales to
orders on `order_id`, then to customers on `customer_id`, reduced to its
(customer_state, price) content. -/
def statePricePairs (sales : List SalesRow) (orders : List OrderRow)
    (customers : List CustomerRow) : List (String × ℚ) :=
  sales.flatMap fun s =>
    (orders.filter fun o => o.order_id == s.order_id).flatMap fun o =>
      (customers.filter fun c => c.customer_id == o.customer_id).map
        fun c => (c.customer_state, s.price)

/-- `calculate_geographic_performance(sales_data, orders_data,
customers_data)`.  First component: the sales table after the call
(unmodified). -/
def calculate_geographic_performance (sales : List SalesRow)
    (orders : List OrderRow) (customers : List CustomerRow) :
    List SalesRow × List PerfRow :=
  (sales, perfTable (statePricePairs sales orders customers))

/-- `categorize_delivery_speed(days)`: the three delivery-speed buckets. -/
def categorize_delivery_speed (days : Int) : String :=
  if days ≤ 3 then "1-3 days"
  else if days ≤ 7 then "4-7 days"
  else "8+ days"

/-- `categorize_delivery_speed` applied to a possibly-NaN day count, as
`.apply` does on a float column: NaN fails both `<=` comparisons in
Python, so a NaN lands in the "8+ days" bucket. -/
def categorizeOpt : Option Int → String
  | some d => categorize_delivery_speed d
  | none => "8+ days"

/-- The deduplicated (`order_id`, `delivery_speed_days`, `review_score`)
triple of `calculate_customer_experience_metrics`. -/
structure CxTriple where
  order_id : String
  delivery_speed_days : Option Int
  review_score : ℚ
deriving Repr, DecidableEq

/-- Result record of `calculate_customer_experience_metrics`. -/
structure CxMetrics where
  avg_delivery_days : Option ℚ
  avg_review_score : Option ℚ
  delivery_satisfaction_by_speed : List (String × ℚ)
deriving Repr, DecidableEq

/-- The in-place column write of `calculate_customer_experience_metrics`:
`sales_data["delivery_speed_days"] = (to_datetime(delivered) -
to_datetime(purchased)).dt.days`. -/
def setDeliverySpeed (r : SalesRow) : SalesRow :=
  { r with delivery_speed_days := daysBetween r.order_purchase_timestamp r.order_delivered_customer_date }

/-- `calculate_customer_experience_metrics(sales_data, reviews_data)`.
First component: the state of `sales_data` after the call — the function
writes the `delivery_speed_days` column onto its input in place.  Then:
inner merge with reviews on `order_id`, deduplicate the three-column
slice (`List.dedup` keeps one copy of each duplicated triple; which copy
is kept only affects row order, which no aggregate here depends on),
bucket the speeds, and report the means (bucket means rounded to 3). -/
def calculate_customer_experience_metrics (sales : List SalesRow)
    (reviews : List ReviewRow) : List SalesRow × CxMetrics :=
  let sales2 := sales.map setDeliverySpeed
  let merged := sales2.flatMap fun s =>
    (reviews.filter fun v => v.order_id == s.order_id).map fun v =>
      ({ order_id := s.order_id
         delivery_speed_days := s.delivery_speed_days
         review_score := v.review_score } : CxTriple)
  let unique_orders := merged.dedup
  let cats := List.insertionSort strLE
    ((unique_orders.map fun t => categorizeOpt t.delivery_speed_days).dedup)
  let satisfaction := cats.map fun c =>
    let grp := (unique_orders.filter fun t =>
      categorizeOpt t.delivery_speed_days == c).map (·.review_score)
    (c, roundTo 3 (grp.sum / (grp.length : ℚ)))
  (sales2,
   { avg_delivery_days :=
       mean ((unique_orders.filterMap (·.delivery_speed_days)).map
         fun d => (d : ℚ))
     avg_review_score := mean (unique_orders.map (·.review_score))
     delivery_satisfaction_by_speed := satisfaction })

/-- Ascending comparison on the counts of a `value_counts` pair. -/
def countLE (a b : String × Nat) : Prop :=
  a.2 ≤ b.2

instance : DecidableRel countLE := fun a b =>
  inferInstanceAs (Decidable (a.2 ≤ b.2))

instance : IsTotal (String × Nat) countLE :=
  ⟨fun a b => le_total a.2 b.2⟩

instance : IsTrans (String × Nat) countLE :=
  ⟨fun _ _ _ h1 h2 => le_trans h1 h2⟩

/-- `Series.value_counts(normalize=True).round(4)`: one entry per
distinct value, proportions of the total, sorted by count descending
(tie order among equal counts is not specified by pandas; the embedding
fixes one). -/
def value_counts_normalize (xs : List String) : List (String × ℚ) :=
  let pairs := xs.dedup.map fun v => (v, (xs.filter (· == v)).length)
  let sorted := (List.insertionSort countLE pairs).reverse
  sorted.map fun p => (p.1, roundTo 4 ((p.2 : ℚ) / (xs.length : ℚ)))

/-- `calculate_order_status_distribution(orders_data, year)`.  First
component: the state of `orders_data` after the call — the function
writes the derived `year` column onto its input in place
(`orders_data["year"] = to_datetime(ts).dt.year`). -/
def calculate_order_status_distribution (orders : List OrderRow)
    (year : Int) : List OrderRow × List (String × ℚ) :=
  let orders2 := orders.map fun r =>
    { r with year := r.order_purchase_timestamp.map (·.year) }
  let year_orders := orders2.filter fun r => r.year == some year
  (orders2, value_counts_normalize (year_orders.map (·.order_status)))

/-! Concrete inputs used to instantiate the theorems below. -/

/-- A concrete timestamp with the given instant and calendar fields. -/
def mkTs (sec year month : Int) : Timestamp :=
  { sec := sec, year := year, month := month, dayOfWeek := 0, quarter := 1 }

/-- A minimal concrete sales row. -/
def exSalesRow (oid pid : String) (y m : Option Int) (p : ℚ) : SalesRow :=
  { order_id := oid, order_item_id := 1, product_id := pid, price := p,
    freight_value := 0, customer_id := "c1", order_status := "delivered",
    order_purchase_timestamp := none, order_delivered_customer_date := none,
    order_estimated_delivery_date := none, year := y, month := m }

/-- A session in which nothing was loaded. -/
def emptyState : LoaderState :=
  { orders := none, order_items := none, products := none,
    customers := none, reviews := none }

/-- A delivered order purchased at instant 0 and delivered one hour
later. -/
def exOrder : OrderRow :=
  { order_id := "o1", customer_id := "c1", order_status := "delivered",
    order_purchase_timestamp := some (mkTs 0 2023 1),
    order_delivered_customer_date := some (mkTs 3600 2023 1),
    order_estimated_delivery_date := none }

/-- A single order item for `exOrder`. -/
def exItem : OrderItemRow :=
  { order_id := "o1", order_item_id := 1, product_id := "p1", price := 10,
    freight_value := 0 }

/-- A fully loaded session with one order, one item, and empty lookup
tables. -/
def exState : LoaderState :=
  { orders := some [exOrder], order_items := some [exItem],
    products := some [], customers := some [], reviews := some [] }

/-- The sales row `prepare_sales_data exState none` produces. -/
def exPrepared : SalesRow :=
  { order_id := "o1", order_item_id := 1, product_id := "p1", price := 10,
    freight_value := 0, customer_id := "c1", order_status := "delivered",
    order_purchase_timestamp := some (mkTs 0 2023 1),
    order_delivered_customer_date := some (mkTs 3600 2023 1),
    order_estimated_delivery_date := none,
    year := some 2023, month := some 1, day_of_week := some 0,
    quarter := some 1, delivery_days := some 0 }

/-- An order recorded as delivered one second before it was purchased
(dirty data the pipeline does not reject). -/
def negOrder : OrderRow :=
  { order_id := "o1", customer_id := "c1", order_status := "delivered",
    order_purchase_timestamp := some (mkTs 100 2023 1),
    order_delivered_customer_date := some (mkTs 99 2023 1),
    order_estimated_delivery_date := none }

/-- A loaded session around `negOrder`. -/
def negState : LoaderState :=
  { orders := some [negOrder], order_items := some [exItem],
    products := none, customers := none, reviews := none }

/-- The sales row `prepare_sales_data negState none` produces: the
one-second-negative delta floors to a delivery_days of -1. -/
def negPrepared : SalesRow :=
  { order_id := "o1", order_item_id := 1, product_id := "p1", price := 10,
    freight_value := 0, customer_id := "c1", order_status := "delivered",
    order_purchase_timestamp := some (mkTs 100 2023 1),
    order_delivered_customer_date := some (mkTs 99 2023 1),
    order_estimated_delivery_date := none,
    year := some 2023, month := some 1, day_of_week := some 0,
    quarter := some 1, delivery_days := some (-1) }

/-- A sales table whose only 2021 row has a negative price. -/
def c1Sales : List SalesRow :=
  [exSalesRow "o1" "p1" (some 2021) none (-10)]

/-- Two sales rows in two distinct product categories with equal
revenue. -/
def c3Sales : List SalesRow :=
  [exSalesRow "o1" "p1" (some 2023) none 10,
   exSalesRow "o2" "p2" (some 2023) none 10]

/-- Two products in categories "a" and "b". -/
def c3Products : List ProductRow :=
  [{ product_id := "p1", product_category_name := "a" },
   { product_id := "p2", product_category_name := "b" }]

/-- A one-row table whose row has year 2023. -/
def c4Df : List SalesRow :=
  [exSalesRow "o1" "p1" (some 2023) (some 5) 10]

/-- An orders table without a `year` column (`year = none`). -/
def c6Orders : List OrderRow :=
  [{ order_id := "o1", customer_id := "c1", order_status := "delivered",
     order_purchase_timestamp := some (mkTs 0 2023 1),
     order_delivered_customer_date := none,
     order_estimated_delivery_date := none }]

/-- A sales table with a single 2022 row. -/
def c10Sales : List SalesRow :=
  [exSalesRow "o1" "p1" (some 2022) none 10]

/-- The analysis row `create_analysis_dataset exState ...` produces. -/
def exAnalysisRow : AnalysisRow :=
  { sales := exPrepared }

/-! Theorems. -/

/-- C9: `categorize_delivery_speed` maps days ≤ 3 to "1-3 days",
3 < days ≤ 7 to "4-7 days" and 7 < days to "8+ days", with exact
boundaries at 3, 4 and 8.  The function is a pure classification of its
integer argument (its embedding is a plain function of `days`; the source
performs no assignment). -/
theorem claim_C9_categorize_delivery_speed :
    (∀ days : Int, days ≤ 3 → categorize_delivery_speed days = "1-3 days") ∧
    (∀ days : Int, 3 < days → days ≤ 7 →
      categorize_delivery_speed days = "4-7 days") ∧
    (∀ days : Int, 7 < days → categorize_delivery_speed days = "8+ days") ∧
    categorize_delivery_speed 3 = "1-3 days" ∧
    categorize_delivery_speed 4 = "4-7 days" ∧
    categorize_delivery_speed 8 = "8+ days" := by
  refine ⟨?_, ?_, ?_, by decide, by decide, by decide⟩
  · intro d h
    simp [categorize_delivery_speed, h]
  · intro d h1 h2
    simp only [categorize_delivery_speed]
    rw [if_neg (by omega), if_pos h2]
  · intro d h
    simp only [categorize_delivery_speed]
    rw [if_neg (by omega), if_neg (by omega)]

/-- C9 witness: the theorem applied at days = 2, 6 and 9. -/
theorem claim_C9_witness :
    categorize_delivery_speed 2 = "1-3 days" ∧
    categorize_delivery_speed 6 = "4-7 days" ∧
    categorize_delivery_speed 9 = "8+ days" :=
  ⟨claim_C9_categorize_delivery_speed.1 2 (by decide),
   claim_C9_categorize_delivery_speed.2.1 6 (by decide) (by decide),
   claim_C9_categorize_delivery_speed.2.2.1 9 (by decide)⟩

/-- C2: in every session state in which `order_items` or `orders` has not
been loaded, `prepare_sales_data` fails, and the failure is the
missing-data error (the model's only error kind, realising the KeyError
on `raw_data`) — no other outcome is possible. -/
theorem claim_C2_missing_data (st : LoaderState)
    (filt : Option (List String))
    (h : st.order_items = none ∨ st.orders = none) :
    prepare_sales_data st filt = Except.error LoaderError.missingData := by
  rcases hi : st.order_items with _ | items
  · rcases ho : st.orders with _ | orders <;>
      simp [prepare_sales_data, hi, ho]
  · rcases ho : st.orders with _ | orders
    · simp [prepare_sales_data, hi, ho]
    · exfalso
      rw [hi, ho] at h
      rcases h with h | h <;> simp at h

/-- C2 witness: the theorem applied to the empty session. -/
theorem claim_C2_witness :
    prepare_sales_data emptyState none =
      Except.error LoaderError.missingData :=
  claim_C2_missing_data emptyState none (Or.inl rfl)

/-- C10: when no row of the sales table has the previous year, the
previous-year AOV is the mean of an empty grouping — NaN (`none`), not
0 — the `> 0` guard fails on it, and the growth percent is 0; the call
does not fail. -/
theorem claim_C10_aov_no_previous_rows (sales : List SalesRow)
    (current_year previous_year : Int)
    (h : ∀ r ∈ sales, r.year ≠ some previous_year) :
    (calculate_average_order_value sales current_year
        previous_year).2.previous_year_aov = none ∧
    (calculate_average_order_value sales current_year
        previous_year).2.aov_growth_percent = some 0 := by
  have hslice : yearSlice sales previous_year = [] := by
    rw [yearSlice, List.filter_eq_nil_iff]
    intro r hr
    simpa using h r hr
  constructor <;>
    simp [calculate_average_order_value, hslice, orderSums, orderIds, mean]

/-- C10 witness: the theorem applied to a table whose only row is in
2022, with previous year 2021. -/
theorem claim_C10_witness :
    (calculate_average_order_value c10Sales 2022
        2021).2.previous_year_aov = none ∧
    (calculate_average_order_value c10Sales 2022
        2021).2.aov_growth_percent = some 0 :=
  claim_C10_aov_no_previous_rows c10Sales 2022 2021 (by decide)

/-- C6 (amended): the table-threading profile of the metrics functions.
Each function returns the post-call state of its (first) table argument:
revenue, monthly-growth, AOV, order-volume, category and geographic
performance leave it unchanged, while `calculate_customer_experience_metrics`
writes the `delivery_speed_days` column onto its sales input in place and
`calculate_order_status_distribution` writes the derived `year` column
onto its orders input in place. -/
theorem claim_C6_mutation_profile :
    (∀ sales cy py, (calculate_revenue_metrics sales cy py).1 = sales) ∧
    (∀ sales y, (calculate_monthly_growth sales y).1 = sales) ∧
    (∀ sales cy py,
      (calculate_average_order_value sales cy py).1 = sales) ∧
    (∀ sales cy py,
      (calculate_order_volume_metrics sales cy py).1 = sales) ∧
    (∀ sales products,
      (calculate_product_category_performance sales products).1 = sales) ∧
    (∀ sales orders customers,
      (calculate_geographic_performance sales orders customers).1 =
        sales) ∧
    (∀ sales reviews,
      (calculate_customer_experience_metrics sales reviews).1 =
        sales.map setDeliverySpeed) ∧
    (∀ orders y,
      (calculate_order_status_distribution orders y).1 =
        orders.map fun r =>
          { r with year := r.order_purchase_timestamp.map (·.year) }) :=
  ⟨fun _ _ _ => rfl, fun _ _ => rfl, fun _ _ _ => rfl, fun _ _ _ => rfl,
   fun _ _ => rfl, fun _ _ _ => rfl, fun _ _ => rfl, fun _ _ => rfl⟩

/-- C6 counterexample: `calculate_order_status_distribution` is not pure —
on an orders table without a `year` column it returns a mutated input
table (the derived `year` column has been attached in place), so the
customer-experience function is not the only impure metrics function. -/
theorem claim_C6_counterexample :
    (calculate_order_status_distribution c6Orders 2023).1 ≠ c6Orders := by
  decide

/-- C1 (amended): the growth guard of all three year-over-year metric
functions is `previous > 0`, not `previous ≠ 0`.  When the previous-year
denominator is positive the growth is `(current − previous) / previous ×
100`; whenever the guard fails — denominator 0, negative, or NaN (the
empty-previous-year AOV) — the growth is 0 and no division error can
occur (the functions are total).  For the distinct-order count the guard
is equivalent to `previous ≠ 0`, so there the claim holds verbatim. -/
theorem claim_C1_growth_guards (sales : List SalesRow) (cy py : Int) :
    (0 < (calculate_revenue_metrics sales cy py).2.previous_year_revenue →
      (calculate_revenue_metrics sales cy py).2.revenue_growth_percent =
        ((calculate_revenue_metrics sales cy py).2.current_year_revenue -
          (calculate_revenue_metrics sales cy
            py).2.previous_year_revenue) /
          (calculate_revenue_metrics sales cy
            py).2.previous_year_revenue * 100) ∧
    (¬ 0 < (calculate_revenue_metrics sales cy
        py).2.previous_year_revenue →
      (calculate_revenue_metrics sales cy py).2.revenue_growth_percent =
        0) ∧
    (∀ p, (calculate_average_order_value sales cy
        py).2.previous_year_aov = some p → 0 < p →
      (calculate_average_order_value sales cy py).2.aov_growth_percent =
        (calculate_average_order_value sales cy
          py).2.current_year_aov.map fun c => (c - p) / p * 100) ∧
    (∀ p, (calculate_average_order_value sales cy
        py).2.previous_year_aov = some p → ¬ 0 < p →
      (calculate_average_order_value sales cy py).2.aov_growth_percent =
        some 0) ∧
    ((calculate_average_order_value sales cy py).2.previous_year_aov =
        none →
      (calculate_average_order_value sales cy py).2.aov_growth_percent =
        some 0) ∧
    (0 < (calculate_order_volume_metrics sales cy
        py).2.previous_year_orders →
      (calculate_order_volume_metrics sales cy py).2.order_growth_percent =
        (((calculate_order_volume_metrics sales cy
            py).2.current_year_orders : ℚ) -
          ((calculate_order_volume_metrics sales cy
            py).2.previous_year_orders : ℚ)) /
          ((calculate_order_volume_metrics sales cy
            py).2.previous_year_orders : ℚ) * 100) ∧
    ((calculate_order_volume_metrics sales cy
        py).2.previous_year_orders = 0 →
      (calculate_order_volume_metrics sales cy py).2.order_growth_percent =
        0) := by
  refine ⟨?_, ?_, ?_, ?_, ?_, ?_, ?_⟩
  · intro h
    dsimp only [calculate_revenue_metrics] at h ⊢
    rw [if_pos h]
  · intro h
    dsimp only [calculate_revenue_metrics] at h ⊢
    rw [if_neg h]
  · intro p hp hpos
    dsimp only [calculate_average_order_value] at hp ⊢
    rw [hp]
    dsimp only
    rw [if_pos hpos]
  · intro p hp hpos
    dsimp only [calculate_average_order_value] at hp ⊢
    rw [hp]
    dsimp only
    rw [if_neg hpos]
  · intro hp
    dsimp only [calculate_average_order_value] at hp ⊢
    rw [hp]
  · intro h
    dsimp only [calculate_order_volume_metrics] at h ⊢
    rw [if_pos h]
  · intro h
    dsimp only [calculate_order_volume_metrics] at h ⊢
    rw [h]
    simp

/-- C1 witness: on the empty sales table every previous-year denominator
degenerates (0 for revenue, 0 distinct orders, NaN AOV) and all three
growth percents are 0. -/
theorem claim_C1_witness :
    (calculate_revenue_metrics ([] : List SalesRow) 2022
      2021).2.revenue_growth_percent = 0 ∧
    (calculate_average_order_value ([] : List SalesRow) 2022
      2021).2.aov_growth_percent = some 0 ∧
    (calculate_order_volume_metrics ([] : List SalesRow) 2022
      2021).2.order_growth_percent = 0 :=
  ⟨(claim_C1_growth_guards [] 2022 2021).2.1
      (by simp [calculate_revenue_metrics, yearSlice]),
   (claim_C1_growth_guards [] 2022 2021).2.2.2.2.1
      (by simp [calculate_average_order_value, yearSlice, orderSums,
        orderIds, mean]),
   (claim_C1_growth_guards [] 2022 2021).2.2.2.2.2.2
      (by simp [calculate_order_volume_metrics, yearSlice,
        nuniqueOrders])⟩

/-- C1 counterexample: with a previous-year revenue of −10 (a nonzero
denominator, reachable because negative prices are flagged but never
filtered), the claim as stated demands the growth formula
(−100 here), but the code returns 0 — the guard is `> 0`, not `≠ 0`. -/
theorem claim_C1_counterexample :
    (calculate_revenue_metrics c1Sales 2022
      2021).2.previous_year_revenue ≠ 0 ∧
    (calculate_revenue_metrics c1Sales 2022
      2021).2.revenue_growth_percent ≠
      ((calculate_revenue_metrics c1Sales 2022
          2021).2.current_year_revenue -
        (calculate_revenue_metrics c1Sales 2022
          2021).2.previous_year_revenue) /
        (calculate_revenue_metrics c1Sales 2022
          2021).2.previous_year_revenue * 100 := by
  constructor <;>
    norm_num [calculate_revenue_metrics, yearSlice, c1Sales, exSalesRow]

/-- Helper: the length of `pctChangeTail` equals that of its list
argument. -/
theorem pctChangeTail_length (prev : ℚ) (xs : List ℚ) :
    (pctChangeTail prev xs).length = xs.length := by
  induction xs generalizing prev with
  | nil => simp [pctChangeTail]
  | cons x rest ih => simp [pctChangeTail, ih]

/-- Helper: `pct_change` preserves the length of the series. -/
theorem pct_change_length (xs : List ℚ) :
    (pct_change xs).length = xs.length := by
  cases xs with
  | nil => rfl
  | cons x rest => simp [pct_change, pctChangeTail_length]

/-- Helper: the i-th entry of `pctChangeTail prev xs` pairs the i-th
entry of `prev :: xs` (the previous value) with the i-th entry of `xs`
(the current value). -/
theorem pctChangeTail_getElem (prev : ℚ) (xs : List ℚ) (i : Nat) :
    (pctChangeTail prev xs)[i]? =
      ((prev :: xs)[i]?).bind fun pv => (xs[i]?).map fun c =>
        if pv = 0 then none else some ((c - pv) / pv) := by
  induction xs generalizing prev i with
  | nil => cases i <;> simp [pctChangeTail]
  | cons x rest ih =>
      cases i with
      | zero => simp [pctChangeTail]
      | succ n => simpa [pctChangeTail] using ih x n

/-- C8: `calculate_monthly_growth` filters the sales table to the given
year, sums `price` grouped by `month` (group keys: the distinct months,
ascending), and returns the pct_change series of those monthly sums
indexed by month: the first entry is null, and entry i+1 is
`(s[i+1] - s[i]) / s[i]` — the percent-change-from-previous-period
value pandas `pct_change` computes (a zero previous sum gives a
non-finite value, collapsed to `none` in the embedding). -/
theorem claim_C8_monthly_growth :
    (∀ (sales : List SalesRow) (year : Int),
      (calculate_monthly_growth sales year).2 =
        (monthsOf (yearSlice sales year)).zip
          (pct_change ((monthsOf (yearSlice sales year)).map
            (monthSum (yearSlice sales year))))) ∧
    (∀ (sales : List SalesRow) (year : Int),
      (calculate_monthly_growth sales year).2.map Prod.fst =
        monthsOf (yearSlice sales year)) ∧
    (∀ xs : List ℚ, (pct_change xs)[0]? =
      if xs.isEmpty then none else some none) ∧
    (∀ (xs : List ℚ) (i : Nat), (pct_change xs)[i + 1]? =
      (xs[i]?).bind fun pv => (xs[i + 1]?).map fun c =>
        if pv = 0 then none else some ((c - pv) / pv)) := by
  refine ⟨fun _ _ => rfl, ?_, ?_, ?_⟩
  · intro sales year
    dsimp only [calculate_monthly_growth]
    rw [List.map_fst_zip]
    rw [pct_change_length, List.length_map]
  · intro xs
    cases xs <;> simp [pct_change]
  · intro xs i
    cases xs with
    | nil => simp [pct_change]
    | cons x rest => simpa [pct_change] using pctChangeTail_getElem x rest i

/-- Helper: every row produced by `prepare_sales_data` carries
`delivery_days` equal to the floored whole-day difference between its own
delivery and purchase timestamps. -/
theorem prepare_sales_data_delivery (st : LoaderState)
    (filt : Option (List String)) (rows : List SalesRow)
    (hok : prepare_sales_data st filt = Except.ok rows) :
    ∀ r ∈ rows, r.delivery_days =
      daysBetween r.order_purchase_timestamp
        r.order_delivered_customer_date := by
  rcases hi : st.order_items with _ | items <;>
    rcases ho : st.orders with _ | orders <;>
      rw [prepare_sales_data] at hok <;> rw [hi, ho] at hok <;>
        simp only [] at hok
  · cases hok
  · cases hok
  · cases hok
  · rw [Except.ok.injEq] at hok
    subst hok
    intro r hr
    rw [List.mem_map] at hr
    obtain ⟨r0, _, rfl⟩ := hr
    rfl

/-- C5 (amended): `delivery_days` is the delivery-minus-purchase
difference in whole days rounded toward negative infinity (floor — the
semantics of pandas `Timedelta.days`), not truncated toward zero.  The
two agree on nonnegative differences, and any delivery completing within
[0, 24h) yields 0. -/
theorem claim_C5_delivery_days_floor (st : LoaderState)
    (filt : Option (List String)) (rows : List SalesRow) (r : SalesRow)
    (p d : Timestamp)
    (hok : prepare_sales_data st filt = Except.ok rows) (hr : r ∈ rows)
    (hp : r.order_purchase_timestamp = some p)
    (hd : r.order_delivered_customer_date = some d) :
    r.delivery_days = some ((d.sec - p.sec).fdiv 86400) ∧
    (0 ≤ d.sec - p.sec →
      r.delivery_days = some ((d.sec - p.sec).tdiv 86400)) ∧
    (0 ≤ d.sec - p.sec → d.sec - p.sec < 86400 →
      r.delivery_days = some 0) := by
  have hdd := prepare_sales_data_delivery st filt rows hok r hr
  rw [hp, hd] at hdd
  simp only [daysBetween] at hdd
  refine ⟨hdd, fun h0 => ?_, fun h0 h1 => ?_⟩
  · rw [hdd, Int.fdiv_eq_ediv _ (by norm_num),
      Int.tdiv_eq_ediv h0 (by norm_num)]
  · rw [hdd, Int.fdiv_eq_ediv _ (by norm_num),
      Int.ediv_eq_zero_of_lt h0 h1]

/-- C5 witness: the theorem applied to a delivery completing one hour
after purchase — `delivery_days` is 0. -/
theorem claim_C5_witness :
    exPrepared.delivery_days = some 0 :=
  (claim_C5_delivery_days_floor exState none [exPrepared] exPrepared
      (mkTs 0 2023 1) (mkTs 3600 2023 1) rfl
      (List.mem_singleton_self exPrepared) rfl rfl).2.2
    (by decide) (by decide)

/-- C5 counterexample: an order recorded as delivered one second before
purchase produces `delivery_days = -1` (floor of −1/86400 days), whereas
truncation toward zero — what the claim states — would give 0. -/
theorem claim_C5_counterexample :
    prepare_sales_data negState none = Except.ok [negPrepared] ∧
    negPrepared.delivery_days = some (-1) ∧
    negPrepared.delivery_days ≠
      some (((mkTs 99 2023 1).sec - (mkTs 100 2023 1).sec).tdiv 86400) :=
  ⟨rfl, rfl, by decide⟩

/-- C4 (amended): `filter_by_date_range` equals a single conjunctive
filter: the inclusive timestamp bounds when supplied, the exact year
match when `year` is truthy (supplied and nonzero — a supplied 0 is
silently ignored by the Python truthiness guard), and the exact month
match when both `month` and `year` are truthy; in particular a month
filter without a year is a silent no-op, and so is a month or year equal
to 0. -/
theorem claim_C4_filter_semantics :
    (∀ df s e y m, filter_by_date_range df s e y m =
      df.filter fun r => passesFilters s e y m r) ∧
    (∀ df s e m, filter_by_date_range df s e none m =
      filter_by_date_range df s e none none) ∧
    (∀ df s e y m, truthy y = false →
      filter_by_date_range df s e y m =
        filter_by_date_range df s e none none) := by
  have hfuse : ∀ df s e y m, filter_by_date_range df s e y m =
      df.filter fun r => passesFilters s e y m r := by
    intro df s e y m
    simp only [filter_by_date_range, passesFilters]
    rcases s with _ | sv <;> rcases e with _ | ev <;>
      cases hy : truthy y <;> cases hm : truthy m <;>
        simp [hy, hm, List.filter_filter, Bool.and_comm,
          Bool.and_left_comm, Bool.and_assoc]
  refine ⟨hfuse, ?_, ?_⟩
  · intro df s e m
    rw [hfuse, hfuse]
    apply List.filter_congr
    intro a _
    simp [passesFilters, truthy]
  · intro df s e y m hy
    rw [hfuse, hfuse]
    apply List.filter_congr
    intro a _
    simp only [passesFilters, hy]
    simp [truthy]

/-- C4 witness: the theorem applied to a concrete table with a falsy
(zero) year filter and a supplied month — both are ignored. -/
theorem claim_C4_witness :
    filter_by_date_range c4Df none none (some 0) (some 5) =
      filter_by_date_range c4Df none none none none :=
  claim_C4_filter_semantics.2.2 c4Df none none (some 0) (some 5)
    (by decide)

/-- C4 counterexample: with a supplied year of 0 the claim says the
result is exactly the rows with year 0 (none here), but the Python
truthiness guard ignores the filter and returns the row unfiltered. -/
theorem claim_C4_counterexample :
    filter_by_date_range c4Df none none (some 0) none ≠
      c4Df.filter fun r => r.year == some (0 : Int) := by
  decide

/-- Helper: every table `perfTable` returns is weakly sorted descending
by `total_revenue`: the reverse of a stable ascending insertion sort. -/
theorem perfTable_sorted_desc (pairs : List (String × ℚ)) :
    List.Sorted (fun a b : PerfRow => b.total_revenue ≤ a.total_revenue)
      (perfTable pairs) := by
  unfold perfTable
  apply List.pairwise_reverse.mpr
  exact List.sorted_insertionSort perfLE _

/-- C3 (amended): the category and geographic performance tables are
always sorted descending by `total_revenue` — weakly, not strictly: rows
with equal revenue can and do occur, and their relative order is that of
the reversed stable ascending sort (reverse group-key order), not the
stable input order. -/
theorem claim_C3_sorted_descending :
    (∀ (sales : List SalesRow) (products : List ProductRow),
      List.Sorted (fun a b : PerfRow => b.total_revenue ≤ a.total_revenue)
        (calculate_product_category_performance sales products).2) ∧
    (∀ (sales : List SalesRow) (orders : List OrderRow)
        (customers : List CustomerRow),
      List.Sorted (fun a b : PerfRow => b.total_revenue ≤ a.total_revenue)
        (calculate_geographic_performance sales orders customers).2) :=
  ⟨fun _ _ => perfTable_sorted_desc _,
   fun _ _ _ => perfTable_sorted_desc _⟩

/-- C3 counterexample: two categories "a" and "b" (input order a before
b) with equal total revenue.  The result is not strictly descending, and
the tied rows come out in order ["b", "a"] — the reverse of their input
order, because pandas reverses the ascending argsort — so ties do not
keep stable relative input order either. -/
theorem claim_C3_counterexample :
    ¬ List.Pairwise
        (fun a b : PerfRow => b.total_revenue < a.total_revenue)
        (calculate_product_category_performance c3Sales c3Products).2 ∧
    (calculate_product_category_performance c3Sales
        c3Products).2.map (·.key) = ["b", "a"] := by
  have hab : strLE "a" "b" := by decide
  have h : (calculate_product_category_performance c3Sales
      c3Products).2 =
      [{ key := "b", total_revenue := roundTo 2 10, total_orders := 1,
         avg_order_value := roundTo 2 10 },
       { key := "a", total_revenue := roundTo 2 10, total_orders := 1,
         avg_order_value := roundTo 2 10 }] := by
    simp [calculate_product_category_performance, perfTable,
      categoryPricePairs, c3Sales, c3Products, exSalesRow,
      List.insertionSort, List.orderedInsert, perfLE, hab]
  rw [h]
  constructor
  · intro hpw
    exact absurd (List.rel_of_pairwise_cons hpw (List.mem_singleton_self _))
      (lt_irrefl _)
  · rfl

/-- Helper: a left join retains at least one extension of every left row,
and the extension carries the same sales record whenever the extension
function only writes the joined columns. -/
theorem leftJoinWith_sales_preserved {β : Type} (rows : List AnalysisRow)
    (tbl : List β) (key : AnalysisRow → β → Bool)
    (ext : AnalysisRow → Option β → AnalysisRow)
    (hext : ∀ r b, (ext r b).sales = r.sales) :
    ∀ r ∈ rows, ∃ r2 ∈ leftJoinWith rows tbl key ext,
      r2.sales = r.sales := by
  intro r hr
  unfold leftJoinWith
  cases hm : tbl.filter (key r) with
  | nil =>
      refine ⟨ext r none, List.mem_flatMap.mpr ⟨r, hr, ?_⟩, hext r none⟩
      rw [hm]
      exact List.mem_singleton_self _
  | cons b bs =>
      refine ⟨ext r (some b), List.mem_flatMap.mpr ⟨r, hr, ?_⟩,
        hext r (some b)⟩
      rw [hm]
      exact List.mem_map_of_mem _ (List.mem_cons_self _ _)

/-- Helper: the product step retains every row's sales record. -/
theorem productStage_sales_preserved (st : LoaderState) (ip : Bool)
    (rows : List AnalysisRow) :
    ∀ r ∈ rows, ∃ r2 ∈ productStage st ip rows, r2.sales = r.sales := by
  intro r hr
  unfold productStage
  rcases hp : st.products with _ | ps <;> cases ip <;> simp only [hp]
  · exact ⟨r, hr, rfl⟩
  · exact ⟨r, hr, rfl⟩
  · exact ⟨r, hr, rfl⟩
  · exact leftJoinWith_sales_preserved rows ps
      (fun r p => p.product_id == r.sales.product_id)
      (fun r p => { r with
        product_category_name := p.map (·.product_category_name) })
      (fun _ _ => rfl) r hr

/-- Helper: the customer step retains every row's sales record. -/
theorem customerStage_sales_preserved (st : LoaderState) (ig : Bool)
    (rows : List AnalysisRow) :
    ∀ r ∈ rows, ∃ r2 ∈ customerStage st ig rows, r2.sales = r.sales := by
  intro r hr
  unfold customerStage
  rcases hc : st.customers with _ | cs <;> cases ig <;> simp only [hc]
  · exact ⟨r, hr, rfl⟩
  · exact ⟨r, hr, rfl⟩
  · exact ⟨r, hr, rfl⟩
  · exact leftJoinWith_sales_preserved rows cs
      (fun r c => c.customer_id == r.sales.customer_id)
      (fun r c => { r with
        customer_state := c.map (·.customer_state)
        customer_city := c.map (·.customer_city) })
      (fun _ _ => rfl) r hr

/-- Helper: a row with no matching review survives the review join as
itself with a null `review_score`. -/
theorem joinReviews_unmatched (rows : List AnalysisRow)
    (rs : List ReviewRow) :
    ∀ r ∈ rows, (∀ v ∈ rs, v.order_id ≠ r.sales.order_id) →
      ({ r with review_score := none } : AnalysisRow) ∈
        joinReviews rows rs := by
  intro r hr hno
  have hf : rs.filter (fun v => v.order_id == r.sales.order_id) = [] := by
    rw [List.filter_eq_nil_iff]
    intro v hv
    simpa using hno v hv
  unfold joinReviews leftJoinWith
  refine List.mem_flatMap.mpr ⟨r, hr, ?_⟩
  rw [hf]
  simp

/-- C7: with reviews loaded, `create_analysis_dataset` with
`include_reviews = true` left-joins reviews — every row of the
(date-filtered) sales data whose `order_id` matches no review is
retained in the result, with its sales columns intact and a null
`review_score`, never dropped. -/
theorem claim_C7_reviews_left_join (st : LoaderState)
    (rs : List ReviewRow) (year month : Option Int) (ig ip : Bool)
    (sales : List SalesRow) (result : List AnalysisRow)
    (hrev : st.reviews = some rs)
    (hsales : analysisSales st year month = Except.ok sales)
    (hres : create_analysis_dataset st year month ig ip true =
      Except.ok result)
    (s : SalesRow) (hs : s ∈ sales)
    (hno : ∀ v ∈ rs, v.order_id ≠ s.order_id) :
    ∃ a ∈ result, a.sales = s ∧ a.review_score = none := by
  rw [create_analysis_dataset, hsales] at hres
  simp only [Except.map] at hres
  rw [Except.ok.injEq] at hres
  subst hres
  have h0 : ({ sales := s } : AnalysisRow) ∈
      sales.map fun s => ({ sales := s } : AnalysisRow) :=
    List.mem_map_of_mem _ hs
  obtain ⟨r1, hr1, hs1⟩ := productStage_sales_preserved st ip _ _ h0
  obtain ⟨r2, hr2, hs2⟩ := customerStage_sales_preserved st ig _ _ hr1
  have hr2s : r2.sales = s := by rw [hs2, hs1]
  unfold reviewStage
  rw [hrev]
  refine ⟨{ r2 with review_score := none }, ?_, ?_, rfl⟩
  · apply joinReviews_unmatched _ rs r2 hr2
    intro v hv
    rw [hr2s]
    exact hno v hv
  · exact hr2s

/-- C7 witness: the theorem applied to a loaded session with one sales
row and an empty reviews table — the row is retained with a null
review score. -/
theorem claim_C7_witness :
    ∃ a ∈ [exAnalysisRow], a.sales = exPrepared ∧
      a.review_score = none :=
  claim_C7_reviews_left_join exState [] none none true true
    [exPrepared] [exAnalysisRow] rfl rfl rfl exPrepared
    (List.mem_singleton_self _) (by simp)

end ECom
